import Mathlib

/-!
Verification development for the support-ai repository.

Embedded components:
* `src/support_ai/lib/utils/docs_chain.py` — the document aggregator
  (refine and map-reduce strategies).
* `src/lib/datasources/ds_updater.py` — the refresh scheduler (`DSUpdater`).

The language model is embedded as an abstract function `llm : String → String`
(a prompt goes in, the parsed string output comes out; `StrOutputParser` on a
string output is the identity).  Prompt templates whose text is a runtime
argument (`initial_prompt`, `refine_prompt`, `map_prompt`, `reduce_prompt`)
are embedded as abstract formatting functions; the one template whose text is
fixed in the source (the collapse prompt) is embedded concretely.
Token counting (`llm.get_num_tokens`) is an abstract `String → Nat`.
-/

/-- A langchain `Document`: a textual content unit.  Metadata plays no role in
any embedded computation (the spec keeps it for trace association only), so it
is omitted. -/
structure Document where
  page_content : String
deriving DecidableEq, Repr

/-- Embeds `partial_format_doc`: `format_document` with the fixed
`document_prompt` template whose whole text is the page_content placeholder,
i.e. it returns the document's content unchanged. -/
def formatDoc (d : Document) : String :=
  d.page_content

/-- Embeds the local helper `format_docs` of `docs_map_reduce`: join the
formatted documents with a blank-line separator. -/
def format_docs (docs : List Document) : String :=
  String.intercalate "\n\n" (docs.map formatDoc)

/-- Embeds the local helper `get_num_tokens` of `docs_map_reduce`: the model's
token count of the blank-line-joined concatenation, with the model's counter
abstracted as `numTokens`. -/
def getNumTokens (numTokens : String → Nat) (docs : List Document) : Nat :=
  numTokens (format_docs docs)

/-- Modelled from the spec: `split_list_of_docs` is imported from langchain and
its code is not under `src/`.  Spec §4.3: "partition the current list of
documents into maximal contiguous sub-groups whose individual token counts
each stay within the budget (partitioning must never split a single document —
if one document alone exceeds the budget, it forms its own sub-group …)".
`acc` is the sub-group being grown; a document whose addition would overflow a
non-empty group flushes that group and starts a new one. -/
def splitGo (lengthFunc : List Document → Nat) (token_max : Nat) :
    List Document → List Document → List (List Document)
  | acc, [] => [acc]
  | acc, d :: rest =>
      if lengthFunc (acc ++ [d]) > token_max ∧ acc ≠ [] then
        acc :: splitGo lengthFunc token_max [d] rest
      else
        splitGo lengthFunc token_max (acc ++ [d]) rest

/-- Modelled from the spec: entry point of the greedy partition (see
`splitGo`). -/
def split_list_of_docs (lengthFunc : List Document → Nat) (token_max : Nat)
    (docs : List Document) : List (List Document) :=
  splitGo lengthFunc token_max [] docs

/-- Modelled from the spec: `collapse_docs` is imported from langchain and its
code is not under `src/`.  Spec §4.3: "for each sub-group, concatenate the
member documents' contents … and invoke a 'collapse' prompt/language-model
call to produce one new document representing that sub-group". -/
def collapse_docs (combine_document_func : List Document → String)
    (docs : List Document) : Document :=
  Document.mk (combine_document_func docs)

/-- Embeds `collapse_chain.invoke`: the context is `format_docs` of the group,
substituted into the fixed collapse prompt template, then sent to the model. -/
def collapse_chain_invoke (llm : String → String) (docs : List Document) :
    String :=
  llm ("Collapse this content:\n\n" ++ format_docs docs)

/-- One iteration of the `while` body of `collapse` in `docs_map_reduce`:
split the list, then collapse every sub-group with the collapse chain. -/
def collapseStep (numTokens : String → Nat) (llm : String → String)
    (token_max : Nat) (docs : List Document) : List Document :=
  (split_list_of_docs (getNumTokens numTokens) token_max docs).map
    (collapse_docs (collapse_chain_invoke llm))

/-- Embeds the local `collapse` of `docs_map_reduce`:
`while get_num_tokens(docs) > token_max: docs = [collapse_docs(g, invoke) for g
in split_list_of_docs(docs, get_num_tokens, token_max)]`.  The unbounded
`while` loop is made total with a fuel argument; `none` means the loop has not
terminated within `fuel` iterations. -/
def collapse (numTokens : String → Nat) (llm : String → String)
    (token_max : Nat) : Nat → List Document → Option (List Document)
  | 0, docs =>
      if getNumTokens numTokens docs > token_max then none else some docs
  | fuel + 1, docs =>
      if getNumTokens numTokens docs > token_max then
        collapse numTokens llm token_max fuel
          (collapseStep numTokens llm token_max docs)
      else some docs

/-- Embeds `map_chain`: format the document, substitute it into the map prompt
(abstracted as `fmtMap`), invoke the model, parse to a string. -/
def map_chain (llm : String → String) (fmtMap : String → String)
    (d : Document) : String :=
  llm (fmtMap (formatDoc d))

/-- Embeds `map_as_doc_chain`: run `map_chain` on the document and wrap the
output as a new intermediate `Document`. -/
def map_as_doc_chain (llm : String → String) (fmtMap : String → String)
    (d : Document) : Document :=
  Document.mk (map_chain llm fmtMap d)

/-- Modelled from the spec: `map_as_doc_chain.map()` runs the runnable once
per element with bounded concurrency; the langchain code is not under `src/`.
Spec §5: "ordering of completion is irrelevant but the final per-document
association order must be preserved", so the phase is embedded as an
order-preserving map. -/
def mapPhase (llm : String → String) (fmtMap : String → String)
    (docs : List Document) : List Document :=
  docs.map (map_as_doc_chain llm fmtMap)

/-- The sequence of prompts sent to the model during the map phase, one per
input document, in input order. -/
def mapPrompts (fmtMap : String → String) (docs : List Document) :
    List String :=
  docs.map (fun d => fmtMap (formatDoc d))

/-- Embeds `reduce_chain`: format the remaining documents, substitute into the
reduce prompt (abstracted as `fmtReduce`), invoke the model once. -/
def reduce_chain (llm : String → String) (fmtReduce : String → String)
    (docs : List Document) : String :=
  llm (fmtReduce (format_docs docs))

/-- Embeds `docs_map_reduce`: `map_as_doc_chain.map() | collapse |
reduce_chain`, with the default token budget 3072 passed to `collapse`.
`none` propagates a non-terminating collapse loop. -/
def docs_map_reduce (llm : String → String) (numTokens : String → Nat)
    (fmtMap fmtReduce : String → String) (fuel : Nat)
    (docs : List Document) : Option String :=
  (collapse numTokens llm 3072 fuel (mapPhase llm fmtMap docs)).map
    (reduce_chain llm fmtReduce)

/-- Embeds `initial_chain` of `docs_refine`: format the first document,
substitute into the initial prompt (abstracted as `fmtInitial`), invoke the
model, parse to a string. -/
def initial_chain (llm : String → String) (fmtInitial : String → String)
    (d : Document) : String :=
  llm (fmtInitial (formatDoc d))

/-- Embeds `refine_chain` of `docs_refine`: the refine prompt (abstracted as
`fmtRefine`) receives the previous context and the formatted current
document. -/
def refine_chain (llm : String → String)
    (fmtRefine : String → String → String) (prev_context : String)
    (d : Document) : String :=
  llm (fmtRefine prev_context (formatDoc d))

/-- The `for doc in docs[1:]` loop of `docs_refine`, additionally recording
every model-call output in order (`outs`); the source records the same values
through its trace group. -/
def refineLoop (refineStep : String → Document → String) :
    String → List String → List Document → String × List String
  | context, outs, [] => (context, outs)
  | context, outs, d :: rest =>
      refineLoop refineStep (refineStep context d)
        (outs ++ [refineStep context d]) rest

/-- Embeds `docs_refine` together with the sequence of model-call outputs.
`docs[0]` on an empty list raises `IndexError` before any model call, embedded
as `none`. -/
def docs_refine_trace (llm : String → String) (fmtInitial : String → String)
    (fmtRefine : String → String → String) :
    List Document → Option (String × List String)
  | [] => none
  | d :: rest =>
      some (refineLoop (refine_chain llm fmtRefine)
        (initial_chain llm fmtInitial d) [initial_chain llm fmtInitial d] rest)

/-- Embeds `docs_refine`: the final context after processing all documents. -/
def docs_refine (llm : String → String) (fmtInitial : String → String)
    (fmtRefine : String → String → String) (docs : List Document) :
    Option String :=
  (docs_refine_trace llm fmtInitial fmtRefine docs).map Prod.fst

/-! ## Refresh scheduler (`src/lib/datasources/ds_updater.py`) -/

/-- Embeds `TIMER_INTERVAL = 24*60*60`. -/
def TIMER_INTERVAL : Nat := 24 * 60 * 60

/-- Python's `timedelta(1)` — one day, in seconds. -/
def oneDay : Nat := 86400

/-- Modelled from the spec: `threading.Timer` is Python standard library, not
under `src/`.  A constructed timer object is dormant until an explicit start
call arms it; spec §9: "the repeating timer object is constructed … but its
start action is not invoked", so construction alone never sets `started`. -/
structure TimerObj where
  interval : Nat
  started : Bool
deriving DecidableEq, Repr

/-- Modelled from the spec: constructing `threading.Timer(interval, fn)`
yields an unstarted timer. -/
def threading_Timer (interval : Nat) : TimerObj :=
  TimerObj.mk interval false

/-- A datasource registered with the updater: a name (the dict key `ds_type`)
and its two record streams, with timestamps as seconds. -/
structure Datasource (Data : Type) where
  name : String
  get_initial_data : List Data
  get_update_data : Nat → Nat → List Data

/-- The observable state of a `DSUpdater` run: the registered datasources (a
Python dict in insertion order), the chronological log of
`vector_store.update(ds_type, data)` calls made so far, and every
`threading.Timer` object constructed so far. -/
structure DSUpdater (Data : Type) where
  datasources : List (Datasource Data)
  store_calls : List (String × Data)
  timers : List TimerObj

/-- Embeds `DSUpdater.initialize_data`: for every registered pair in
registration order, push each record of `get_initial_data()` to the vector
store, then construct (without starting) a `threading.Timer` of
`TIMER_INTERVAL`. -/
def DSUpdater.initialize_data {Data : Type} (s : DSUpdater Data) :
    DSUpdater Data :=
  { s with
    store_calls := s.datasources.foldl
      (fun log ds => ds.get_initial_data.foldl
        (fun log data => log ++ [(ds.name, data)]) log)
      s.store_calls,
    timers := s.timers ++ [threading_Timer TIMER_INTERVAL] }

/-- Embeds `DSUpdater._update_data`: `start_time = now`,
`end_time = now + timedelta(1)`; for every registered pair in registration
order, push each record of `get_update_data(start_time, end_time)` to the
vector store, then construct (without starting) a `threading.Timer` of
`TIMER_INTERVAL`. -/
def DSUpdater.update_data {Data : Type} (now : Nat) (s : DSUpdater Data) :
    DSUpdater Data :=
  { s with
    store_calls := s.datasources.foldl
      (fun log ds => (ds.get_update_data now (now + oneDay)).foldl
        (fun log data => log ++ [(ds.name, data)]) log)
      s.store_calls,
    timers := s.timers ++ [threading_Timer TIMER_INTERVAL] }

/-- Refinement target, written from the spec's words for `initialize_data`:
the full sequence of `(ds_type, data)` update calls of one initial pass, i.e.
each datasource's initial records tagged with its name, concatenated in
registration order. -/
def specInitialCallSequence {Data : Type} (dss : List (Datasource Data)) :
    List (String × Data) :=
  dss.flatMap (fun ds => ds.get_initial_data.map (fun data => (ds.name, data)))

/-- Refinement target, written from the spec's words for the recurring
refresh: each datasource's update records for the window
`[now, now + 1 day]`, tagged with its name, concatenated in registration
order. -/
def specUpdateCallSequence {Data : Type} (dss : List (Datasource Data))
    (now : Nat) : List (String × Data) :=
  dss.flatMap (fun ds =>
    (ds.get_update_data now (now + 86400)).map (fun data => (ds.name, data)))

/-! ## Helper lemmas -/

lemma foldl_append_singleton {α β : Type} (f : α → β) :
    ∀ (l : List α) (acc : List β),
      l.foldl (fun a x => a ++ [f x]) acc = acc ++ l.map f := by
  intro l
  induction l with
  | nil => intro acc; simp
  | cons x xs ih =>
      intro acc
      simp only [List.foldl_cons, List.map_cons]
      rw [ih]
      simp

lemma foldl_append_flatMap {α β : Type} (f : α → List β) :
    ∀ (l : List α) (acc : List β),
      l.foldl (fun a x => a ++ f x) acc = acc ++ l.flatMap f := by
  intro l
  induction l with
  | nil => intro acc; simp
  | cons x xs ih =>
      intro acc
      simp only [List.foldl_cons, List.flatMap_cons]
      rw [ih]
      simp

lemma initialize_data_store_calls {Data : Type} (s : DSUpdater Data) :
    (DSUpdater.initialize_data s).store_calls =
      s.store_calls ++ specInitialCallSequence s.datasources := by
  unfold DSUpdater.initialize_data specInitialCallSequence
  simp only
  rw [show (fun (log : List (String × Data)) (ds : Datasource Data) =>
        ds.get_initial_data.foldl
          (fun log data => log ++ [(ds.name, data)]) log) =
      (fun log ds => log ++
        ds.get_initial_data.map (fun data => (ds.name, data))) from ?_]
  · exact foldl_append_flatMap _ s.datasources s.store_calls
  · funext log ds
    exact foldl_append_singleton _ ds.get_initial_data log

lemma update_data_store_calls {Data : Type} (now : Nat)
    (s : DSUpdater Data) :
    (DSUpdater.update_data now s).store_calls =
      s.store_calls ++ specUpdateCallSequence s.datasources now := by
  unfold DSUpdater.update_data specUpdateCallSequence
  simp only
  rw [show (fun (log : List (String × Data)) (ds : Datasource Data) =>
        (ds.get_update_data now (now + oneDay)).foldl
          (fun log data => log ++ [(ds.name, data)]) log) =
      (fun log ds => log ++
        (ds.get_update_data now (now + 86400)).map
          (fun data => (ds.name, data))) from ?_]
  · exact foldl_append_flatMap _ s.datasources s.store_calls
  · funext log ds
    rw [foldl_append_singleton _ (ds.get_update_data now (now + oneDay)) log]
    rfl

/-! ## Claim theorems — refresh scheduler -/

/-- C1: the claim says that after `initialize_data` completes, the recurring
refresh timer is armed, and that each refresh pass rearms it.  The code
constructs a `threading.Timer` in both paths but never starts it: the set of
started timers never grows, and every timer the two operations construct
carries `started = false`.  This theorem documents the divergence. -/
theorem C1_timer_never_armed {Data : Type} (now : Nat) (s : DSUpdater Data) :
    (DSUpdater.initialize_data s).timers =
      s.timers ++ [TimerObj.mk 86400 false] ∧
    (DSUpdater.update_data now s).timers =
      s.timers ++ [TimerObj.mk 86400 false] ∧
    (DSUpdater.initialize_data s).timers.filter (fun t => t.started) =
      s.timers.filter (fun t => t.started) ∧
    (DSUpdater.update_data now s).timers.filter (fun t => t.started) =
      s.timers.filter (fun t => t.started) := by
  refine ⟨rfl, rfl, ?_, ?_⟩ <;>
    simp [DSUpdater.initialize_data, DSUpdater.update_data, threading_Timer,
      List.filter_append]

/-- C8: a refresh pass calls `get_update_data(start, end)` with `start` the
invocation time and `end` = `start` plus one day (86400 s), and pushes each
returned record to the vector store tagged with the pair's name, in
registration order. -/
theorem C8_update_pass_calls {Data : Type} (now : Nat) (s : DSUpdater Data) :
    (DSUpdater.update_data now s).store_calls =
      s.store_calls ++ s.datasources.flatMap (fun ds =>
        (ds.get_update_data now (now + 86400)).map
          (fun data => (ds.name, data))) :=
  update_data_store_calls now s

/-- C9: `initialize_data` leaves the registered datasources untouched, and a
second run on the resulting state emits exactly the same sequence of
`vector_store.update` calls as the first. -/
theorem C9_initialize_data_idempotent {Data : Type} (s : DSUpdater Data) :
    (DSUpdater.initialize_data s).datasources = s.datasources ∧
    (DSUpdater.initialize_data s).store_calls =
      s.store_calls ++ specInitialCallSequence s.datasources ∧
    (DSUpdater.initialize_data (DSUpdater.initialize_data s)).store_calls =
      s.store_calls ++ specInitialCallSequence s.datasources ++
        specInitialCallSequence s.datasources := by
  refine ⟨rfl, initialize_data_store_calls s, ?_⟩
  rw [initialize_data_store_calls (DSUpdater.initialize_data s),
    initialize_data_store_calls s]
  rfl

/-! ## Collapse-loop lemmas -/

lemma collapse_of_not_gt (numTokens : String → Nat) (llm : String → String)
    (token_max : Nat) (docs : List Document)
    (h : ¬ getNumTokens numTokens docs > token_max) :
    ∀ fuel, collapse numTokens llm token_max fuel docs = some docs := by
  intro fuel
  cases fuel <;> simp [collapse, h]

lemma collapse_succ_of_gt (numTokens : String → Nat) (llm : String → String)
    (token_max : Nat) (docs : List Document)
    (h : getNumTokens numTokens docs > token_max) (fuel : Nat) :
    collapse numTokens llm token_max (fuel + 1) docs =
      collapse numTokens llm token_max fuel
        (collapseStep numTokens llm token_max docs) := by
  simp [collapse, h]

/-! ## Claim theorems — collapse phase -/

/-- C2: whenever the collapse loop returns a document list, the total token
count of that list is within the budget (so in particular the claim's
disjunction holds; the loop guard makes the first disjunct unconditional). -/
theorem C2_collapse_postcondition (numTokens : String → Nat)
    (llm : String → String) (B : Nat) (fuel : Nat) (docs out : List Document)
    (h : collapse numTokens llm B fuel docs = some out) :
    getNumTokens numTokens out ≤ B ∨
      ∃ d, out = [d] ∧ getNumTokens numTokens [d] > B := by
  left
  induction fuel generalizing docs with
  | zero =>
      unfold collapse at h
      by_cases hg : getNumTokens numTokens docs > B
      · simp [hg] at h
      · simp [hg] at h
        subst h
        omega
  | succ n ih =>
      unfold collapse at h
      by_cases hg : getNumTokens numTokens docs > B
      · simp [hg] at h
        exact ih _ h
      · simp [hg] at h
        subst h
        omega

theorem C2_collapse_postcondition_witness :
    collapse String.length (fun s => s) 3072 0 [Document.mk "hi"] =
      some [Document.mk "hi"] ∧
    (getNumTokens String.length [Document.mk "hi"] ≤ 3072 ∨
      ∃ d, [Document.mk "hi"] = [d] ∧
        getNumTokens String.length [d] > 3072) :=
  ⟨by decide, C2_collapse_postcondition String.length (fun s => s) 3072 0
    [Document.mk "hi"] [Document.mk "hi"] (by decide)⟩

/-- C6: with the default budget 3072, the comparison is strict: a group whose
token count is at most 3072 — in particular exactly 3072 — is returned
untouched, and a further collapse pass runs exactly when the count exceeds
3072. -/
theorem C6_strict_budget_comparison (numTokens : String → Nat)
    (llm : String → String) (fuel : Nat) (docs : List Document) :
    (getNumTokens numTokens docs ≤ 3072 →
      collapse numTokens llm 3072 fuel docs = some docs) ∧
    (getNumTokens numTokens docs = 3072 →
      collapse numTokens llm 3072 fuel docs = some docs) ∧
    (getNumTokens numTokens docs > 3072 →
      collapse numTokens llm 3072 (fuel + 1) docs =
        collapse numTokens llm 3072 fuel
          (collapseStep numTokens llm 3072 docs)) := by
  refine ⟨fun h => collapse_of_not_gt _ _ _ _ (by omega) fuel,
    fun h => collapse_of_not_gt _ _ _ _ (by omega) fuel,
    fun h => collapse_succ_of_gt _ _ _ _ h fuel⟩

theorem C6_strict_budget_comparison_witness :
    collapse (fun _ => 3072) (fun s => s) 3072 0 [Document.mk "a"] =
      some [Document.mk "a"] ∧
    collapse (fun _ => 3073) (fun s => s) 3072 1 [Document.mk "a"] =
      collapse (fun _ => 3073) (fun s => s) 3072 0
        (collapseStep (fun _ => 3073) (fun s => s) 3072 [Document.mk "a"]) :=
  ⟨(C6_strict_budget_comparison (fun _ => 3072) (fun s => s) 0
      [Document.mk "a"]).2.1 rfl,
   (C6_strict_budget_comparison (fun _ => 3073) (fun s => s) 0
      [Document.mk "a"]).2.2 (by decide)⟩

lemma collapse_const_five_none (fuel : Nat) :
    ∀ docs, collapse (fun _ => 5) (fun s => s) 2 fuel docs = none := by
  induction fuel with
  | zero =>
      intro docs
      simp [collapse, getNumTokens]
  | succ n ih =>
      intro docs
      simp [collapse, getNumTokens, ih]

/-- C3: refutation of the claim as stated.  With the token counter that
returns 5 on every string and budget 2, the single document `"a"` exceeds the
budget on its own; the collapse loop never returns (for no fuel does it
produce a result), and one loop iteration does not leave the document
unchanged — it replaces it with the collapse chain's output. -/
theorem C3_counterexample :
    (¬ ∃ fuel out, collapse (fun _ => 5) (fun s => s) 2 fuel
        [Document.mk "a"] = some out) ∧
    collapseStep (fun _ => 5) (fun s => s) 2 [Document.mk "a"] ≠
      [Document.mk "a"] := by
  constructor
  · rintro ⟨fuel, out, h⟩
    rw [collapse_const_five_none fuel] at h
    exact Option.noConfusion h
  · decide

/-- C3 (amended): a single document whose token count alone exceeds the budget
is never split — the partition is the singleton group `[[d]]` — but the
collapse loop does not pass it through: the next iteration replaces it with
one new document produced by the collapse-chain invocation on it, and the loop
only stops once some iteration's result fits the budget (which need never
happen). -/
theorem C3_single_over_budget_doc (numTokens : String → Nat)
    (llm : String → String) (B : Nat) (d : Document) (fuel : Nat)
    (h : getNumTokens numTokens [d] > B) :
    split_list_of_docs (getNumTokens numTokens) B [d] = [[d]] ∧
    collapse numTokens llm B (fuel + 1) [d] =
      collapse numTokens llm B fuel
        [Document.mk (collapse_chain_invoke llm [d])] := by
  constructor
  · simp [split_list_of_docs, splitGo]
  · rw [collapse_succ_of_gt _ _ _ _ h fuel]
    congr 1
    simp [collapseStep, split_list_of_docs, splitGo, collapse_docs]

theorem C3_single_over_budget_doc_witness :
    getNumTokens (fun _ => 5) [Document.mk "a"] > 2 ∧
    (split_list_of_docs (getNumTokens (fun _ => 5)) 2 [Document.mk "a"] =
        [[Document.mk "a"]] ∧
      collapse (fun _ => 5) (fun s => s) 2 1 [Document.mk "a"] =
        collapse (fun _ => 5) (fun s => s) 2 0
          [Document.mk (collapse_chain_invoke (fun s => s)
            [Document.mk "a"])]) :=
  ⟨by decide, C3_single_over_budget_doc (fun _ => 5) (fun s => s) 2
    (Document.mk "a") 0 (by decide)⟩

/-! ## Claim theorems — refine strategy and map-reduce entry -/

lemma refineLoop_spec (f : String → Document → String) :
    ∀ (rest : List Document) (context : String) (outs : List String),
      outs.getLast? = some context →
      (refineLoop f context outs rest).2.length = outs.length + rest.length ∧
      (refineLoop f context outs rest).2.getLast? =
        some (refineLoop f context outs rest).1 := by
  intro rest
  induction rest with
  | nil =>
      intro context outs h
      exact ⟨rfl, h⟩
  | cons d ds ih =>
      intro context outs h
      simp only [refineLoop]
      obtain ⟨hlen, hlast⟩ := ih (f context d) (outs ++ [f context d])
        (by simp)
      refine ⟨?_, hlast⟩
      rw [hlen]
      simp
      omega

/-- C4: on a non-empty document list, `docs_refine` makes exactly
`docs.length` model invocations — one initial call on the head, one refine
call per further document, each fed the previous context — and returns
exactly the last invocation's parsed output. -/
theorem C4_refine_invocation_count (llm : String → String)
    (fmtInitial : String → String) (fmtRefine : String → String → String)
    (docs : List Document) (h : docs ≠ []) :
    ∃ context outs,
      docs_refine_trace llm fmtInitial fmtRefine docs =
        some (context, outs) ∧
      outs.length = docs.length ∧
      outs.getLast? = some context ∧
      docs_refine llm fmtInitial fmtRefine docs = some context := by
  cases docs with
  | nil => exact absurd rfl h
  | cons d rest =>
      obtain ⟨hlen, hlast⟩ := refineLoop_spec (refine_chain llm fmtRefine)
        rest (initial_chain llm fmtInitial d)
        [initial_chain llm fmtInitial d] (by simp)
      refine ⟨_, _, rfl, ?_, hlast, rfl⟩
      rw [hlen]
      simp [Nat.add_comm]

theorem C4_refine_invocation_count_witness :
    ([Document.mk "x"] ≠ ([] : List Document)) ∧
    (∃ context outs,
      docs_refine_trace (fun s => s) (fun s => s) (fun a b => a ++ b)
        [Document.mk "x"] = some (context, outs) ∧
      outs.length = [Document.mk "x"].length ∧
      outs.getLast? = some context ∧
      docs_refine (fun s => s) (fun s => s) (fun a b => a ++ b)
        [Document.mk "x"] = some context) :=
  ⟨by simp, C4_refine_invocation_count (fun s => s) (fun s => s)
    (fun a b => a ++ b) [Document.mk "x"] (by simp)⟩

/-- C5: `docs_refine` on the empty list fails before any model invocation
(`docs[0]` raises, embedded as `none`): neither a final string nor a partial
invocation trace is produced. -/
theorem C5_refine_empty_fails (llm : String → String)
    (fmtInitial : String → String) (fmtRefine : String → String → String) :
    docs_refine_trace llm fmtInitial fmtRefine [] = none ∧
    docs_refine llm fmtInitial fmtRefine [] = none :=
  ⟨rfl, rfl⟩

/-- C7: the map phase sends exactly one map prompt per input document and the
i-th mapped document is `map_as_doc_chain` of the i-th input document —
order-preserving, one call per document. -/
theorem C7_map_once_per_document (llm : String → String)
    (fmtMap : String → String) (docs : List Document) :
    (mapPrompts fmtMap docs).length = docs.length ∧
    mapPhase llm fmtMap docs =
      (mapPrompts fmtMap docs).map (fun p => Document.mk (llm p)) ∧
    ∀ i : Nat, (mapPhase llm fmtMap docs)[i]? =
      (docs[i]?).map (map_as_doc_chain llm fmtMap) := by
  refine ⟨List.length_map _ _, ?_, fun i => ?_⟩
  · simp [mapPhase, mapPrompts, List.map_map]
    intro a _
    rfl
  · simp [mapPhase, List.getElem?_map]

/-- C10: `docs_map_reduce` on the empty list performs no map call, and —
provided the tokenizer gives the empty concatenation at most 3072 tokens — no
collapse call, and returns the model's answer to the reduce prompt applied to
the empty concatenation. -/
theorem C10_map_reduce_empty (llm : String → String)
    (numTokens : String → Nat) (fmtMap fmtReduce : String → String)
    (fuel : Nat) (h : numTokens "" ≤ 3072) :
    mapPhase llm fmtMap [] = [] ∧
    collapse numTokens llm 3072 fuel [] = some [] ∧
    docs_map_reduce llm numTokens fmtMap fmtReduce fuel [] =
      some (llm (fmtReduce "")) := by
  have h0 : getNumTokens numTokens ([] : List Document) = numTokens "" := rfl
  have hng : ¬ getNumTokens numTokens ([] : List Document) > 3072 := by omega
  refine ⟨rfl, collapse_of_not_gt _ _ _ _ hng fuel, ?_⟩
  show (collapse numTokens llm 3072 fuel []).map (reduce_chain llm fmtReduce)
    = some (llm (fmtReduce ""))
  rw [collapse_of_not_gt _ _ _ _ hng fuel]
  rfl

theorem C10_map_reduce_empty_witness :
    String.length "" ≤ 3072 ∧
    (mapPhase (fun s => s) (fun s => s) [] = [] ∧
      collapse String.length (fun s => s) 3072 0 [] = some [] ∧
      docs_map_reduce (fun s => s) String.length (fun s => s) (fun s => s) 0
        [] = some "") :=
  ⟨by decide, C10_map_reduce_empty (fun s => s) String.length (fun s => s)
    (fun s => s) 0 (by decide)⟩
